import Mathlib

/-!
Verification of the github-webhook-server repository (src/src/server.ts and
tests/utils.test.ts) against its natural-language specification.

The development shallowly embeds the server's pure request-handling logic:

* `sha256` / `hmacSha256` / `bytesToHex` model Node's
  `crypto.createHmac('sha256', secret).update(body).digest('hex')` pipeline,
  operating on byte lists (`List Nat`, each element < 256).
* `Env` models the process environment (`process.env` plus `process.cwd()`);
  `getConfig` is the literal translation of the `getConfig` function, which
  the server re-evaluates on every use.
* `verifySignature` models the `verifySignature` function, including the
  falsy-header check, the missing-rawBody check, the length guard and the
  `crypto.timingSafeEqual` comparison wrapped in try/catch.
  `verifySignatureWith` abstracts the comparator so that theorems can state
  that the comparator is not consulted on short-circuited paths.
* `handleWebhook` models the webhook handler as a pure function from the
  request parts to an HTTP outcome plus the list of deployment commands it
  spawns; `postWebhook` additionally models the express JSON body-parsing
  middleware (a parse failure yields the 400 response before the handler).
* `executeDeployment` models the deployment runner as a function of the
  external process outcome, returning the `DeployResult` and the list of
  log lines emitted.
-/

/-! ## SHA-256 and HMAC-SHA256 over byte lists -/

/-- Truncation to a 32-bit word. -/
def u32 (n : Nat) : Nat := n % 4294967296

/-- Right rotation of a 32-bit word. -/
def rotr (n x : Nat) : Nat := u32 ((x >>> n) ||| (x <<< (32 - n)))

def bsig0 (x : Nat) : Nat := rotr 2 x ^^^ rotr 13 x ^^^ rotr 22 x

def bsig1 (x : Nat) : Nat := rotr 6 x ^^^ rotr 11 x ^^^ rotr 25 x

def ssig0 (x : Nat) : Nat := rotr 7 x ^^^ rotr 18 x ^^^ (x >>> 3)

def ssig1 (x : Nat) : Nat := rotr 17 x ^^^ rotr 19 x ^^^ (x >>> 10)

def ch (x y z : Nat) : Nat := (x &&& y) ^^^ ((x ^^^ 4294967295) &&& z)

def maj (x y z : Nat) : Nat := (x &&& y) ^^^ (x &&& z) ^^^ (y &&& z)

/-- The 64 SHA-256 round constants. -/
def K256 : List Nat :=
  [1116352408, 1899447441, 3049323471, 3921009573, 961987163, 1508970993,
   2453635748, 2870763221, 3624381080, 310598401, 607225278, 1426881987,
   1925078388, 2162078206, 2614888103, 3248222580, 3835390401, 4022224774,
   264347078, 604807628, 770255983, 1249150122, 1555081692, 1996064986,
   2554220882, 2821834349, 2952996808, 3210313671, 3336571891, 3584528711,
   113926993, 338241895, 666307205, 773529912, 1294757372, 1396182291,
   1695183700, 1986661051, 2177026350, 2456956037, 2730485921, 2820302411,
   3259730800, 3345764771, 3516065817, 3600352804, 4094571909, 275423344,
   430227734, 506948616, 659060556, 883997877, 958139571, 1322822218,
   1537002063, 1747873779, 1955562222, 2024104815, 2227730452, 2361852424,
   2428436474, 2756734187, 3204031479, 3329325298]

/-- The SHA-256 initial hash state. -/
def H256 : List Nat :=
  [1779033703, 3144134277, 1013904242, 2773480762, 1359893119, 2600822924,
   528734635, 1541459225]

/-- Groups bytes four at a time into big-endian 32-bit words. -/
def toWords : List Nat → List Nat
  | a :: b :: c :: d :: rest => (((a * 256 + b) * 256 + c) * 256 + d) :: toWords rest
  | _ => []

/-- Big-endian bytes of a 32-bit word. -/
def wordBytes (w : Nat) : List Nat := [w / 16777216 % 256, w / 65536 % 256, w / 256 % 256, w % 256]

/-- Big-endian 64-bit encoding of the message bit length. -/
def lenBytes64 (n : Nat) : List Nat :=
  [n / 72057594037927936 % 256, n / 281474976710656 % 256, n / 1099511627776 % 256,
   n / 4294967296 % 256, n / 16777216 % 256, n / 65536 % 256, n / 256 % 256, n % 256]

/-- SHA-256 padding: append 0x80, zeros, and the 64-bit bit length. -/
def padMessage (msg : List Nat) : List Nat :=
  let z := (119 - msg.length % 64) % 64
  msg ++ 128 :: (List.replicate z 0 ++ lenBytes64 (msg.length * 8))

/-- Extends the 16 chunk words to the 64-entry message schedule.
The accumulator holds the words produced so far, most recent first. -/
def scheduleGo : Nat → List Nat → List Nat
  | 0, wrev => wrev.reverse
  | n + 1, wrev =>
      scheduleGo n
        (u32 (ssig1 (wrev.getD 1 0) + wrev.getD 6 0 + ssig0 (wrev.getD 14 0) + wrev.getD 15 0)
          :: wrev)

/-- One SHA-256 compression round on the eight-word working state. -/
def roundStep (st : List Nat) (kw : Nat × Nat) : List Nat :=
  match st with
  | [a, b, c, d, e, f, g, h] =>
      let t1 := u32 (h + bsig1 e + ch e f g + kw.1 + kw.2)
      let t2 := u32 (bsig0 a + maj a b c)
      [u32 (t1 + t2), a, b, c, u32 (d + t1), e, f, g]
  | other => other

/-- Processes one 64-byte chunk into the running hash state. -/
def processChunk (st : List Nat) (chunk : List Nat) : List Nat :=
  let w := scheduleGo 48 (toWords chunk).reverse
  let fin := (K256.zip w).foldl roundStep st
  (st.zip fin).map (fun p => u32 (p.1 + p.2))

/-- Splits a padded message into 64-byte chunks; the first argument is the
chunk count, which makes the recursion structural. -/
def chunksGo : Nat → List Nat → List (List Nat)
  | 0, _ => []
  | n + 1, l => l.take 64 :: chunksGo n (l.drop 64)

/-- SHA-256 of a byte list. -/
def sha256 (msg : List Nat) : List Nat :=
  let padded := padMessage msg
  let st := (chunksGo (padded.length / 64) padded).foldl processChunk H256
  st.foldr (fun w acc => wordBytes w ++ acc) []

/-- HMAC-SHA256 (RFC 2104) of a message under a key, both byte lists. -/
def hmacSha256 (key msg : List Nat) : List Nat :=
  let key1 := if key.length > 64 then sha256 key else key
  let key64 := key1 ++ List.replicate (64 - key1.length) 0
  let ipad := key64.map (fun b => b ^^^ 54)
  let opad := key64.map (fun b => b ^^^ 92)
  sha256 (opad ++ sha256 (ipad ++ msg))

/-- Lower-case hex digit for a value below 16. -/
def hexChar (n : Nat) : Char := "0123456789abcdef".data.getD n 'x'

/-- Lower-case hex rendering of a byte list, as produced by `digest('hex')`. -/
def bytesToHex (bs : List Nat) : String :=
  ⟨bs.foldr (fun b acc => hexChar (b / 16) :: hexChar (b % 16) :: acc) []⟩

/-- UTF-8 encoding of one character. -/
def utf8Bytes (c : Char) : List Nat :=
  let n := c.toNat
  if n < 128 then [n]
  else if n < 2048 then [192 + n / 64, 128 + n % 64]
  else if n < 65536 then [224 + n / 4096, 128 + n / 64 % 64, 128 + n % 64]
  else [240 + n / 262144, 128 + n / 4096 % 64, 128 + n / 64 % 64, 128 + n % 64]

/-- UTF-8 bytes of a string, matching `Buffer.from(s)` in Node. -/
def strBytes (s : String) : List Nat := s.data.foldr (fun c acc => utf8Bytes c ++ acc) []

/-! ## Environment and configuration (`getConfig`, `validateConfig`) -/

/-- A snapshot of the process environment variables the server reads, plus
the working directory returned by `process.cwd()`. `none` means the
variable is unset. -/
structure Env where
  WEBHOOK_SECRET : Option String
  PROJECT_PATH : Option String
  DEPLOY_COMMAND : Option String
  ALLOWED_BRANCHES : Option String
  ENABLE_DETAILED_LOGS : Option String
  cwd : String
deriving DecidableEq

/-- The configuration record built by `getConfig` in server.ts. -/
structure Config where
  secret : Option String
  projectPath : String
  deployCommand : String
  allowedBranches : List String
  enableDetailedLogs : Bool
deriving DecidableEq

/-- JavaScript `value || fallback` on an optional environment string: both an
unset variable and the empty string (falsy) select the fallback. -/
def jsOrElse (v : Option String) (fallback : String) : String :=
  match v with
  | some s => if s == "" then fallback else s
  | none => fallback

/-- JavaScript `String.prototype.split(',')` over the character list. -/
def splitCommaGo : List Char → List Char → List String
  | acc, [] => [⟨acc.reverse⟩]
  | acc, c :: rest =>
      if c = ',' then ⟨acc.reverse⟩ :: splitCommaGo [] rest
      else splitCommaGo (c :: acc) rest

/-- JavaScript `s.split(',')`: splits at every comma; `"".split(',')` is
`[""]`. -/
def splitComma (s : String) : List String := splitCommaGo [] s.data

/-- Translation of `getConfig` (server.ts lines 34-42). The server calls this
afresh on every use, reading the environment current at call time. -/
def getConfig (env : Env) : Config :=
  { secret := env.WEBHOOK_SECRET
    projectPath := jsOrElse env.PROJECT_PATH env.cwd
    deployCommand := jsOrElse env.DEPLOY_COMMAND "yarn install && yarn build"
    allowedBranches :=
      match env.ALLOWED_BRANCHES with
      | some s => splitComma s
      | none => ["main", "master"]
    enableDetailedLogs := env.ENABLE_DETAILED_LOGS == some "true" }

/-- Translation of `validateConfig` (server.ts lines 45-55): construction
fails (returns `false`) exactly when the secret is absent or empty, the two
falsy cases of `!config.secret`. -/
def validateConfig (env : Env) : Bool :=
  match (getConfig env).secret with
  | none => false
  | some s => !(s == "")

/-- Translation of the configuration-validation part of `createServer`
(server.ts line 213): the server is constructed iff `validateConfig` passes. -/
def createServer (env : Env) : Bool := validateConfig env

/-! ## Signature creation and verification -/

/-- Translation of `createSignature` from tests/utils.test.ts: the GitHub
signature header for a payload string under a secret. -/
def createSignature (payload : String) (secret : String) : String :=
  "sha256=" ++ bytesToHex (hmacSha256 (strBytes secret) (strBytes payload))

/-- The expected header string computed inside `verifySignature`
(server.ts lines 86-88). -/
def expectedSignature (env : Env) (rawBody : List Nat) : String :=
  "sha256=" ++ bytesToHex (hmacSha256 (strBytes ((getConfig env).secret.getD "")) rawBody)

/-- Model of `crypto.timingSafeEqual` on the two header strings: a boolean
verdict on equal-length inputs; a thrown `RangeError` (modelled as `.error`)
on differently-sized buffers. -/
def timingSafeEqual (a b : String) : Except String Bool :=
  if a.length == b.length then Except.ok (a == b)
  else Except.error "RangeError: Input buffers must have the same byte length"

/-- Translation of `verifySignature` (server.ts lines 72-106), abstracted
over the constant-time comparator so theorems can express that the
comparator is never consulted on short-circuited paths. The try/catch is
modelled by mapping a comparator error to `false`. -/
def verifySignatureWith (tse : String → String → Except String Bool) (env : Env)
    (signature? : Option String) (rawBody? : Option (List Nat)) : Bool :=
  match signature? with
  | none => false
  | some signature =>
    if signature == "" then false
    else
      match rawBody? with
      | none => false
      | some rawBody =>
        let expected := expectedSignature env rawBody
        if signature.length != expected.length then false
        else
          match tse signature expected with
          | Except.ok isValid => isValid
          | Except.error _ => false

/-- `verifySignature` as the server runs it, with `crypto.timingSafeEqual`
as the comparator. -/
def verifySignature : Env → Option String → Option (List Nat) → Bool :=
  verifySignatureWith timingSafeEqual

/-! ## Branch extraction and filtering -/

/-- Removes the first occurrence of `pat` from a character list, the
behaviour of JavaScript `String.prototype.replace(pat, '')` with a string
pattern. -/
def replaceFirstL (pat : List Char) : List Char → List Char
  | [] => []
  | c :: rest =>
      if pat.isPrefixOf (c :: rest) then (c :: rest).drop pat.length
      else c :: replaceFirstL pat rest

/-- JavaScript `s.replace(pat, '')`: removes the first occurrence only. -/
def jsReplaceOnce (s pat : String) : String := ⟨replaceFirstL pat.data s.data⟩

/-- The branch name the server computes from a ref:
`ref.replace('refs/heads/', '')` (server.ts line 111). -/
def branchOf (ref : String) : String := jsReplaceOnce ref "refs/heads/"

/-- Translation of `isAllowedBranch` (server.ts lines 109-113). -/
def isAllowedBranch (env : Env) (ref : String) : Bool :=
  (getConfig env).allowedBranches.contains (branchOf ref)

/-- Branch extraction following the specification's words, for comparison
with `branchOf`: the ref with the fixed `refs/heads/` PREFIX stripped, and
unchanged when the ref does not start with that prefix. -/
def specStripBranch (ref : String) : String :=
  if "refs/heads/".data.isPrefixOf ref.data then ⟨ref.data.drop 11⟩ else ref

/-! ## Webhook handling -/

/-- The `repository` object of a GitHub push payload. -/
structure Repository where
  name : String
  full_name : String
deriving DecidableEq

/-- The `pusher` object of a GitHub push payload. -/
structure Pusher where
  name : String
  email : String
deriving DecidableEq

/-- The parsed webhook payload (`GitHubWebhookPayload` in server.ts). -/
structure GitHubWebhookPayload where
  ref : Option String
  repository : Option Repository
  pusher : Option Pusher
deriving DecidableEq

/-- The observable outcome of handling one POST /webhook request: the HTTP
status, the message or error string of the JSON response body, and the
command strings handed to the external process runner (one entry per
`executeDeployment` invocation). -/
structure HandleResult where
  status : Nat
  body : String
  deployments : List String
deriving DecidableEq

/-- The shell command `executeDeployment` passes to `exec`
(server.ts lines 122-123). -/
def deployCommandString (config : Config) : String :=
  "cd " ++ config.projectPath ++ " && " ++ config.deployCommand

/-- Translation of `handleWebhook` (server.ts lines 150-196) as a pure
function of the environment current at request time and the request parts.
`eventHeader? = none` models an absent `x-github-event` header, which the
template literal renders as the string `undefined`. -/
def handleWebhook (env : Env) (signature? eventHeader? : Option String)
    (payload : GitHubWebhookPayload) (rawBody? : Option (List Nat)) : HandleResult :=
  if !(verifySignature env signature? rawBody?) then
    { status := 403, body := "無効な署名です", deployments := [] }
  else
    let event := eventHeader?.getD "undefined"
    if event != "push" then
      { status := 200, body := event ++ " イベントを無視しました", deployments := [] }
    else
      let accept : HandleResult :=
        { status := 200, body := "デプロイが正常にトリガーされました",
          deployments := [deployCommandString (getConfig env)] }
      match payload.ref with
      | some ref =>
          if !(ref == "") && !(isAllowedBranch env ref) then
            { status := 200, body := "ブランチ " ++ branchOf ref ++ " へのプッシュを無視しました",
              deployments := [] }
          else accept
      | none => accept

/-- The POST /webhook route including the express.json middleware and the
JSON-parse error handler (server.ts lines 218-237): a body that fails to
parse (`parsed? = none`) yields the 400 response before `handleWebhook`
runs. -/
def postWebhook (env : Env) (parsed? : Option GitHubWebhookPayload)
    (signature? eventHeader? : Option String) (rawBody? : Option (List Nat)) : HandleResult :=
  match parsed? with
  | none => { status := 400, body := "無効なJSONです", deployments := [] }
  | some payload => handleWebhook env signature? eventHeader? payload rawBody?

/-! ## Deployment execution and logging -/

/-- Outcome of the external `exec` collaborator: success with captured
stdout/stderr, or a thrown error carrying a message and optional captured
streams. -/
inductive ExecOutcome where
  | success (stdout stderr : String)
  | failure (message : String) (stdout? stderr? : Option String)
deriving DecidableEq

/-- The `DeployResult` record of server.ts. -/
structure DeployResult where
  success : Bool
  stdout : Option String
  stderr : Option String
  error : Option String
deriving DecidableEq

/-- Severity of a logger call in server.ts. -/
inductive LogLevel where
  | info
  | warn
  | error
deriving DecidableEq

/-- One logger call: the severity, the message string, and the extra
argument, when one is passed (for example the captured stdout). -/
structure LogEntry where
  level : LogLevel
  msg : String
  arg : Option String
deriving DecidableEq

/-- The two log lines emitted before the deploy command runs
(server.ts lines 119-120). -/
def startLogs (config : Config) : List LogEntry :=
  [{ level := LogLevel.info, msg := "🚀 デプロイを開始します...", arg := none },
   { level := LogLevel.info, msg := "実行コマンド: " ++ deployCommandString config, arg := none }]

/-- Translation of `executeDeployment` (server.ts lines 116-147) as a
function of the external process outcome: the returned `DeployResult` and
the log lines emitted, in order. -/
def executeDeployment (env : Env) (outcome : ExecOutcome) : DeployResult × List LogEntry :=
  let config := getConfig env
  match outcome with
  | ExecOutcome.success stdout stderr =>
      ({ success := true, stdout := some stdout, stderr := some stderr, error := none },
        startLogs config
          ++ (cond config.enableDetailedLogs
                ({ level := LogLevel.info, msg := "デプロイ標準出力:", arg := some stdout } ::
                  cond (stderr != "")
                    [{ level := LogLevel.warn, msg := "デプロイ標準エラー:", arg := some stderr }] [])
                [])
          ++ [{ level := LogLevel.info, msg := "✅ デプロイが正常に完了しました", arg := none }])
  | ExecOutcome.failure message stdout? stderr? =>
      ({ success := false, stdout := stdout?, stderr := stderr?, error := some message },
        startLogs config
          ++ [{ level := LogLevel.error, msg := "❌ デプロイに失敗しました:", arg := some message }])

/-- Whether a log entry mentions the string `s` in its message or its
argument (substring containment over characters). -/
def containsSub (pat : List Char) : List Char → Bool
  | [] => pat.isEmpty
  | c :: rest => pat.isPrefixOf (c :: rest) || containsSub pat rest

/-- Whether a log entry mentions the string `s` in its message or extra
argument. -/
def mentions (s : String) (e : LogEntry) : Bool :=
  containsSub s.data e.msg.data ||
    (match e.arg with
     | some a => containsSub s.data a.data
     | none => false)

/-! ## Helper lemmas -/

theorem sha_header_ne_empty (x : String) : ("sha256=" ++ x) ≠ "" := by
  intro h
  have h2 : ("sha256=" ++ x).data = "".data := by rw [h]
  rw [String.data_append] at h2
  rcases List.append_eq_nil.mp h2 with ⟨h3, _⟩
  exact absurd h3 (by decide)

theorem expectedSignature_eq (env : Env) (payload secret : String)
    (h : env.WEBHOOK_SECRET = some secret) :
    expectedSignature env (strBytes payload) = createSignature payload secret := by
  unfold expectedSignature createSignature getConfig
  rw [h]
  rfl

theorem verify_expected (env : Env) (sig : String) (body : List Nat)
    (hne : sig ≠ "") (h : sig = expectedSignature env body) :
    verifySignature env (some sig) (some body) = true := by
  subst h
  simp [verifySignature, verifySignatureWith, timingSafeEqual,
    beq_eq_false_iff_ne.mpr hne, bne]

theorem verify_not_expected (env : Env) (sig : String) (body : List Nat)
    (h : sig ≠ expectedSignature env body) :
    verifySignature env (some sig) (some body) = false := by
  by_cases he : sig = ""
  · simp [verifySignature, verifySignatureWith, he]
  · by_cases hl : sig.length = (expectedSignature env body).length
    · simp [verifySignature, verifySignatureWith, timingSafeEqual, hl, bne,
        beq_eq_false_iff_ne.mpr he, beq_eq_false_iff_ne.mpr h]
    · simp [verifySignature, verifySignatureWith, bne,
        beq_eq_false_iff_ne.mpr he, hl]

theorem verify_none_body (env : Env) (sig? : Option String) :
    verifySignature env sig? none = false := by
  cases sig? with
  | none => rfl
  | some s => simp [verifySignature, verifySignatureWith]

theorem verify_createSignature (env : Env) (payload secret : String)
    (h : env.WEBHOOK_SECRET = some secret) :
    verifySignature env (some (createSignature payload secret)) (some (strBytes payload)) = true := by
  apply verify_expected
  · exact sha_header_ne_empty _
  · rw [expectedSignature_eq env payload secret h]

theorem reject_eq (env : Env) (sig? evt? : Option String) (payload : GitHubWebhookPayload)
    (body? : Option (List Nat)) (hv : verifySignature env sig? body? = false) :
    handleWebhook env sig? evt? payload body? =
      { status := 403, body := "無効な署名です", deployments := [] } := by
  unfold handleWebhook
  simp [hv]

theorem accept_eq (env : Env) (sig? : Option String) (payload : GitHubWebhookPayload)
    (body? : Option (List Nat))
    (hv : verifySignature env sig? body? = true)
    (hb : ∀ ref, payload.ref = some ref → isAllowedBranch env ref = true) :
    handleWebhook env sig? (some "push") payload body? =
      { status := 200, body := "デプロイが正常にトリガーされました",
        deployments := [deployCommandString (getConfig env)] } := by
  unfold handleWebhook
  cases hr : payload.ref with
  | none => simp [hv]
  | some r => simp [hv, hb r hr]

theorem ignore_branch_eq (env : Env) (sig? : Option String) (payload : GitHubWebhookPayload)
    (body? : Option (List Nat)) (r : String)
    (hv : verifySignature env sig? body? = true)
    (hr : payload.ref = some r) (hne : r ≠ "") (hb : isAllowedBranch env r = false) :
    handleWebhook env sig? (some "push") payload body? =
      { status := 200, body := "ブランチ " ++ branchOf r ++ " へのプッシュを無視しました",
        deployments := [] } := by
  unfold handleWebhook
  simp [hv, hr, hb, beq_eq_false_iff_ne.mpr hne]

theorem deploy_iff (env : Env) (sig? evt? : Option String) (payload : GitHubWebhookPayload)
    (body? : Option (List Nat)) :
    (handleWebhook env sig? evt? payload body?).deployments ≠ [] ↔
      (verifySignature env sig? body? = true ∧ evt? = some "push" ∧
        ∀ ref, payload.ref = some ref → ref ≠ "" → isAllowedBranch env ref = true) := by
  unfold handleWebhook
  cases hv : verifySignature env sig? body? with
  | false => simp [hv]
  | true =>
    cases evt? with
    | none => simp
    | some e =>
      by_cases he : e = "push"
      · subst he
        cases hr : payload.ref with
        | none => simp [hr, deployCommandString]
        | some r =>
          by_cases hrempty : r = ""
          · subst hrempty
            simp [hr]
          · cases hb : isAllowedBranch env r with
            | false =>
              simp [hr, hb, beq_eq_false_iff_ne.mpr hrempty]
              exact hrempty
            | true =>
              simp [hr, hb, beq_eq_false_iff_ne.mpr hrempty]
      · simp [beq_eq_false_iff_ne.mpr he, he]

theorem replaceFirstL_left (pat t : List Char) (hne : pat ≠ []) :
    replaceFirstL pat (pat ++ t) = t := by
  cases pat with
  | nil => exact absurd rfl hne
  | cons p ps =>
    have hp : ((p :: ps).isPrefixOf ((p :: ps) ++ t)) = true :=
      List.isPrefixOf_iff_prefix.mpr (List.prefix_append _ _)
    rw [List.cons_append]
    rw [replaceFirstL]
    rw [← List.cons_append, if_pos hp]
    exact List.drop_left _ _

theorem branchOf_append (b : String) : branchOf ("refs/heads/" ++ b) = b := by
  unfold branchOf jsReplaceOnce
  rw [String.data_append]
  rw [replaceFirstL_left _ _ (by decide)]

theorem append_ne_empty (s t : String) (h : s.data ≠ []) : (s ++ t) ≠ "" := by
  intro heq
  have h2 : (s ++ t).data = "".data := by rw [heq]
  rw [String.data_append] at h2
  exact h (List.append_eq_nil.mp h2).1

theorem validateConfig_iff (env : Env) :
    validateConfig env = true ↔ ∃ s, env.WEBHOOK_SECRET = some s ∧ s ≠ "" := by
  unfold validateConfig getConfig
  cases h : env.WEBHOOK_SECRET with
  | none => simp [h]
  | some s => simp [h]

theorem deployments_nil_or_cmd (env : Env) (sig? evt? : Option String)
    (payload : GitHubWebhookPayload) (body? : Option (List Nat)) :
    (handleWebhook env sig? evt? payload body?).deployments = [] ∨
    (handleWebhook env sig? evt? payload body?).deployments =
      [deployCommandString (getConfig env)] := by
  unfold handleWebhook
  cases hv : verifySignature env sig? body? with
  | false => simp
  | true =>
    cases evt? with
    | none => simp
    | some e =>
      by_cases he : e = "push"
      · subst he
        cases payload.ref with
        | none => simp
        | some r =>
          by_cases hc : (!(r == "") && !(isAllowedBranch env r)) = true <;> simp [hc]
      · simp [he]

/-! ## Concrete fixtures

`envDefault` mirrors `setupTestEnv` from tests/utils.test.ts (with the deploy
command shortened); the variants change a single variable. -/

def envDefault : Env :=
  { WEBHOOK_SECRET := some "test-secret", PROJECT_PATH := some "/test/project",
    DEPLOY_COMMAND := some "echo deploy", ALLOWED_BRANCHES := none,
    ENABLE_DETAILED_LOGS := none, cwd := "/cwd" }

def envDev : Env := { envDefault with ALLOWED_BRANCHES := some "dev" }

def envMain : Env := { envDefault with ALLOWED_BRANCHES := some "main" }

def envXmain : Env := { envDefault with ALLOWED_BRANCHES := some "xmain" }

def envEmptyBranches : Env := { envDefault with ALLOWED_BRANCHES := some "" }

def envDetailed : Env := { envDefault with ENABLE_DETAILED_LOGS := some "true" }

/-! ## Claims -/

/-- C1: for every payload and configured secret, verifying the payload
against the signature produced by signing it with that secret succeeds;
and a signature produced with a different secret is rejected whenever it
differs from the correct one — the final step from "different secret" to
"different signature" is HMAC-SHA256 collision-freeness, which is taken as
the hypothesis `hdiff` since it is neither provable nor refutable for the
real hash. -/
theorem c1_sign_verify_roundtrip (env : Env) (payload secret other : String)
    (hsec : env.WEBHOOK_SECRET = some secret)
    (hdiff : createSignature payload other ≠ createSignature payload secret) :
    verifySignature env (some (createSignature payload secret)) (some (strBytes payload)) = true ∧
    verifySignature env (some (createSignature payload other)) (some (strBytes payload)) = false := by
  constructor
  · exact verify_createSignature env payload secret hsec
  · apply verify_not_expected
    rw [expectedSignature_eq env payload secret hsec]
    exact hdiff

set_option maxRecDepth 20000 in
/-- C1 witness: the secret `test-secret` versus `different-secret` on a
concrete payload; the two HMAC-SHA256 signatures are computed by the kernel
and differ. -/
theorem c1_sign_verify_roundtrip_witness :
    envDefault.WEBHOOK_SECRET = some "test-secret" ∧
    createSignature "x" "different-secret" ≠ createSignature "x" "test-secret" ∧
    (verifySignature envDefault (some (createSignature "x" "test-secret"))
        (some (strBytes "x")) = true ∧
      verifySignature envDefault (some (createSignature "x" "different-secret"))
        (some (strBytes "x")) = false) :=
  ⟨rfl, by decide,
    c1_sign_verify_roundtrip envDefault "x" "test-secret" "different-secret" rfl (by decide)⟩

set_option maxRecDepth 20000 in
/-- C2 counterexample: with the default allowed-branch set, a correctly
signed push whose payload carries `ref = ""` (an empty, hence falsy, ref)
triggers a deployment although the branch extracted from the ref is not in
the allowed set, so the claimed if-and-only-if fails as stated. -/
theorem c2_deploy_iff_counterexample :
    (handleWebhook envDefault (some (createSignature "{}" "test-secret")) (some "push")
        { ref := some "", repository := none, pusher := none }
        (some (strBytes "{}"))).deployments ≠ [] ∧
    isAllowedBranch envDefault "" = false := by decide

/-- C2 amended: a deployment is triggered iff signature verification
succeeded, the event type is `push`, and every present, non-empty ref has
its extracted branch in the allowed set — an absent ref, and likewise an
empty (falsy) ref, skips the branch filter; no deployment occurs on any
rejected or ignored request. -/
theorem c2_deploy_iff_amended (env : Env) (sig? evt? : Option String)
    (payload : GitHubWebhookPayload) (body? : Option (List Nat)) :
    (handleWebhook env sig? evt? payload body?).deployments ≠ [] ↔
      (verifySignature env sig? body? = true ∧ evt? = some "push" ∧
        ∀ ref, payload.ref = some ref → ref ≠ "" → isAllowedBranch env ref = true) :=
  deploy_iff env sig? evt? payload body?

/-- C3: whenever the provided signature header's length differs from that of
the expected string `sha256=` + hex(HMAC-SHA256(secret, rawBody)),
verification returns false for EVERY comparator — in particular the
comparator is never consulted (a comparator that fails on all inputs still
yields false), so mismatched-length buffers never reach
`crypto.timingSafeEqual` and verification cannot crash there. -/
theorem c3_length_short_circuit (tse : String → String → Except String Bool)
    (env : Env) (sig : String) (body : List Nat)
    (h : sig.length ≠ (expectedSignature env body).length) :
    verifySignatureWith tse env (some sig) (some body) = false := by
  by_cases he : sig = ""
  · simp [verifySignatureWith, he]
  · simp [verifySignatureWith, beq_eq_false_iff_ne.mpr he, bne,
      beq_eq_false_iff_ne.mpr h]

set_option maxRecDepth 20000 in
/-- C3 witness: a short header against a concrete expected signature, with
the comparator replaced by one that fails on every input: verification
still returns false without consulting it. -/
theorem c3_length_short_circuit_witness :
    ("sha256=deadbeef".length ≠ (expectedSignature envDefault (strBytes "{}")).length) ∧
    verifySignatureWith (fun _ _ => Except.error "RangeError") envDefault
      (some "sha256=deadbeef") (some (strBytes "{}")) = false :=
  ⟨by decide,
    c3_length_short_circuit (fun _ _ => Except.error "RangeError") envDefault
      "sha256=deadbeef" (strBytes "{}") (by decide)⟩

/-- C4 counterexample: the handler's branch extraction removes the FIRST
occurrence of `refs/heads/` anywhere in the ref, not only a leading prefix:
on the ref `xrefs/heads/main` the code computes the branch `xmain`, while
prefix-stripping (the claim's wording, `specStripBranch`) leaves the ref
unchanged; with `ALLOWED_BRANCHES=xmain` the two disagree about whether the
push is allowed. -/
theorem c4_branch_extraction_counterexample :
    branchOf "xrefs/heads/main" = "xmain" ∧
    specStripBranch "xrefs/heads/main" = "xrefs/heads/main" ∧
    branchOf "xrefs/heads/main" ≠ specStripBranch "xrefs/heads/main" ∧
    isAllowedBranch envXmain "xrefs/heads/main" = true ∧
    (getConfig envXmain).allowedBranches.contains
      (specStripBranch "xrefs/heads/main") = false := by decide

/-- C4 amended: a verified push whose payload has no ref skips the branch
filter and is accepted (200 acceptance body, deployment triggered); when a
ref is present the branch used by the filter is the ref with the FIRST
occurrence of the substring `refs/heads/` removed, which coincides with
stripping the `refs/heads/` prefix whenever the ref starts with that
prefix. -/
theorem c4_ref_handling_amended (env : Env) (sig? : Option String)
    (payload : GitHubWebhookPayload) (body? : Option (List Nat))
    (hv : verifySignature env sig? body? = true) (hr : payload.ref = none) :
    (handleWebhook env sig? (some "push") payload body? =
      { status := 200, body := "デプロイが正常にトリガーされました",
        deployments := [deployCommandString (getConfig env)] }) ∧
    (∀ ref : String, isAllowedBranch env ref =
      (getConfig env).allowedBranches.contains (branchOf ref)) ∧
    (∀ ref : String, "refs/heads/".data.isPrefixOf ref.data = true →
      branchOf ref = specStripBranch ref) := by
  refine ⟨?_, fun ref => rfl, ?_⟩
  · refine accept_eq env sig? payload body? hv (fun ref h => ?_)
    rw [hr] at h
    cases h
  · intro ref hp
    obtain ⟨t, ht⟩ := List.isPrefixOf_iff_prefix.mp hp
    unfold branchOf jsReplaceOnce specStripBranch
    rw [if_pos hp]
    rw [← ht, replaceFirstL_left _ _ (by decide)]
    have hlen : ("refs/heads/".data).length = 11 := by decide
    rw [← hlen, List.drop_left]

set_option maxRecDepth 20000 in
/-- C4 witness: a correctly signed push with no ref is accepted and deploys;
and the prefix-agreement part instantiated at `refs/heads/main`. -/
theorem c4_ref_handling_amended_witness :
    verifySignature envDefault (some (createSignature "{}" "test-secret"))
      (some (strBytes "{}")) = true ∧
    handleWebhook envDefault (some (createSignature "{}" "test-secret")) (some "push")
        { ref := none, repository := none, pusher := none } (some (strBytes "{}")) =
      { status := 200, body := "デプロイが正常にトリガーされました",
        deployments := [deployCommandString (getConfig envDefault)] } ∧
    branchOf "refs/heads/main" = specStripBranch "refs/heads/main" := by
  have hv := verify_createSignature envDefault "{}" "test-secret" rfl
  have hmain := c4_ref_handling_amended envDefault
    (some (createSignature "{}" "test-secret"))
    { ref := none, repository := none, pusher := none } (some (strBytes "{}")) hv rfl
  exact ⟨hv, hmain.1, hmain.2.2 "refs/heads/main" (by decide)⟩

set_option maxRecDepth 20000 in
/-- C5 counterexample: the configuration is NOT a construction-time
snapshot. `envDev` and `envMain` share the same secret and differ only in
`ALLOWED_BRANCHES`; a server constructed under `envDev`
(`validateConfig envDev = true`) deploys a signed push to `refs/heads/dev`,
but if the environment has changed to `envMain` by the time the request is
handled, the very same request is ignored: the per-request configuration is
read from the environment current at request time. -/
theorem c5_dynamic_config_counterexample :
    validateConfig envDev = true ∧
    getConfig envMain ≠ getConfig envDev ∧
    (handleWebhook envDev (some (createSignature "{}" "test-secret")) (some "push")
        { ref := some "refs/heads/dev", repository := none, pusher := none }
        (some (strBytes "{}"))).deployments ≠ [] ∧
    (handleWebhook envMain (some (createSignature "{}" "test-secret")) (some "push")
        { ref := some "refs/heads/dev", repository := none, pusher := none }
        (some (strBytes "{}"))).deployments = [] := by decide

/-- C5 amended: `getConfig` is re-evaluated on every use, so each request is
governed by the environment current at request time: the deploy command a
request spawns (when it spawns one) is built from `getConfig` of that
request-time environment, and construction (`validateConfig`) checks only
that the secret is present and non-empty. -/
theorem c5_dynamic_config_amended (env : Env) (sig? evt? : Option String)
    (payload : GitHubWebhookPayload) (body? : Option (List Nat)) :
    (validateConfig env = true ↔ ∃ s, env.WEBHOOK_SECRET = some s ∧ s ≠ "") ∧
    ((handleWebhook env sig? evt? payload body?).deployments = [] ∨
      (handleWebhook env sig? evt? payload body?).deployments =
        ["cd " ++ (getConfig env).projectPath ++ " && " ++ (getConfig env).deployCommand]) :=
  ⟨validateConfig_iff env, deployments_nil_or_cmd env sig? evt? payload body?⟩

/-- C6: every accepted request — valid signature, event `push`, and every
ref present in the payload passing the allowed-branch filter — yields the
200 acceptance response and exactly one deployment invocation whose command
string is `cd <projectPath> && <deployCommand>`. -/
theorem c6_accept_response (env : Env) (sig? : Option String)
    (payload : GitHubWebhookPayload) (body? : Option (List Nat))
    (hv : verifySignature env sig? body? = true)
    (hb : ∀ ref, payload.ref = some ref → isAllowedBranch env ref = true) :
    handleWebhook env sig? (some "push") payload body? =
      { status := 200, body := "デプロイが正常にトリガーされました",
        deployments :=
          ["cd " ++ (getConfig env).projectPath ++ " && " ++ (getConfig env).deployCommand] } :=
  accept_eq env sig? payload body? hv hb

set_option maxRecDepth 20000 in
/-- C6 witness: a correctly signed push to `refs/heads/main` under the
default configuration is accepted with exactly one deployment whose command
is `cd /test/project && echo deploy`. -/
theorem c6_accept_response_witness :
    verifySignature envDefault (some (createSignature "{}" "test-secret"))
      (some (strBytes "{}")) = true ∧
    handleWebhook envDefault (some (createSignature "{}" "test-secret")) (some "push")
        { ref := some "refs/heads/main", repository := none, pusher := none }
        (some (strBytes "{}")) =
      { status := 200, body := "デプロイが正常にトリガーされました",
        deployments := ["cd /test/project && echo deploy"] } := by
  have hv := verify_createSignature envDefault "{}" "test-secret" rfl
  refine ⟨hv, ?_⟩
  rw [c6_accept_response envDefault _ _ _ hv ?hb]
  case hb =>
    intro ref h
    injection h with h2
    rw [← h2]
    decide
  decide

set_option maxRecDepth 20000 in
/-- C7 counterexample: an empty-but-present raw body is NOT rejected: an
empty Buffer is truthy in JavaScript, so `!req.rawBody` does not fire, the
HMAC is computed over zero bytes, and a header that matches it verifies —
the request is accepted, not rejected with 403. -/
theorem c7_empty_body_counterexample :
    verifySignature envDefault (some (createSignature "" "test-secret")) (some []) = true ∧
    (handleWebhook envDefault (some (createSignature "" "test-secret")) (some "push")
        { ref := none, repository := none, pusher := none } (some [])).status = 200 := by decide

/-- C7 amended: when the raw body is ABSENT, signature verification fails
and the request is rejected with 403 and no deployment, even when a
signature header is present; an empty-but-present raw body is instead
verified like any other body, over zero bytes. -/
theorem c7_absent_body_amended (env : Env) (sig? evt? : Option String)
    (payload : GitHubWebhookPayload) :
    verifySignature env sig? none = false ∧
    handleWebhook env sig? evt? payload none =
      { status := 403, body := "無効な署名です", deployments := [] } :=
  ⟨verify_none_body env sig?,
    reject_eq env sig? evt? payload none (verify_none_body env sig?)⟩

/-- C8 counterexample: on a failed deployment with captured stderr
`errtext`, the failure log line carries only the error message (`boom`); no
emitted log entry mentions the captured stderr, which is returned in the
`DeployResult` but never logged. -/
theorem c8_stderr_not_logged_counterexample :
    (executeDeployment envDefault
        (ExecOutcome.failure "boom" none (some "errtext"))).1.stderr = some "errtext" ∧
    ((executeDeployment envDefault
        (ExecOutcome.failure "boom" none (some "errtext"))).2).any
      (mentions "errtext") = false := by decide

/-- C8 amended: captured stdout/stderr are logged only when detailed logging
is enabled (with it disabled, a successful deployment emits exactly the two
start lines and the completion line); with it enabled the stdout line is
emitted; and every failure emits the error log line — carrying the error
MESSAGE, not the captured stderr — regardless of verbosity. -/
theorem c8_logging_amended (env : Env) (stdout stderr msg : String)
    (o1 o2 : Option String) :
    ((getConfig env).enableDetailedLogs = false →
      (executeDeployment env (ExecOutcome.success stdout stderr)).2 =
        startLogs (getConfig env) ++
          [{ level := LogLevel.info, msg := "✅ デプロイが正常に完了しました", arg := none }]) ∧
    ((getConfig env).enableDetailedLogs = true →
      { level := LogLevel.info, msg := "デプロイ標準出力:", arg := some stdout } ∈
        (executeDeployment env (ExecOutcome.success stdout stderr)).2) ∧
    { level := LogLevel.error, msg := "❌ デプロイに失敗しました:", arg := some msg } ∈
      (executeDeployment env (ExecOutcome.failure msg o1 o2)).2 := by
  refine ⟨fun h => ?_, fun h => ?_, ?_⟩
  · simp [executeDeployment, h]
  · simp [executeDeployment, h]
  · simp [executeDeployment]

/-- C8 witness: with detailed logging off, a successful deployment logs
exactly start lines plus completion; with it on, the stdout line appears;
and a concrete failure always emits the error log line. -/
theorem c8_logging_amended_witness :
    ((getConfig envDefault).enableDetailedLogs = false ∧
      (executeDeployment envDefault (ExecOutcome.success "out" "err")).2 =
        startLogs (getConfig envDefault) ++
          [{ level := LogLevel.info, msg := "✅ デプロイが正常に完了しました", arg := none }]) ∧
    ((getConfig envDetailed).enableDetailedLogs = true ∧
      { level := LogLevel.info, msg := "デプロイ標準出力:", arg := some "out" } ∈
        (executeDeployment envDetailed (ExecOutcome.success "out" "err")).2) ∧
    { level := LogLevel.error, msg := "❌ デプロイに失敗しました:", arg := some "boom" } ∈
      (executeDeployment envDefault (ExecOutcome.failure "boom" none (some "errtext"))).2 :=
  ⟨⟨by decide, (c8_logging_amended envDefault "out" "err" "boom" none (some "errtext")).1 (by decide)⟩,
   ⟨by decide, (c8_logging_amended envDetailed "out" "err" "boom" none (some "errtext")).2.1 (by decide)⟩,
   (c8_logging_amended envDefault "out" "err" "boom" none (some "errtext")).2.2⟩

/-- C9: a POST /webhook request whose body fails to parse as JSON
(`parsed? = none`) receives the 400 invalid-JSON response, for every
signature header and event header, and triggers no deployment. -/
theorem c9_malformed_json (env : Env) (sig? evt? : Option String)
    (body? : Option (List Nat)) :
    postWebhook env none sig? evt? body? =
      { status := 400, body := "無効なJSONです", deployments := [] } := rfl

/-- C10: setting `ALLOWED_BRANCHES` to the empty string yields the
singleton allowed set containing the empty string, not the default
`{main, master}`: every verified push to `refs/heads/<b>` with `b`
non-empty is ignored (200, no deployment), while the ref `refs/heads/`
itself — whose extracted branch is the empty string — passes the filter. -/
theorem c10_empty_allowed_branches (env : Env)
    (h : env.ALLOWED_BRANCHES = some "") :
    (getConfig env).allowedBranches = [""] ∧
    (∀ b : String, b ≠ "" → isAllowedBranch env ("refs/heads/" ++ b) = false) ∧
    isAllowedBranch env "refs/heads/" = true ∧
    (∀ (sig? : Option String) (payload : GitHubWebhookPayload)
        (body? : Option (List Nat)) (b : String),
      verifySignature env sig? body? = true →
      payload.ref = some ("refs/heads/" ++ b) → b ≠ "" →
      (handleWebhook env sig? (some "push") payload body?).deployments = []) := by
  have hcfg : (getConfig env).allowedBranches = [""] := by
    unfold getConfig
    rw [h]
    rfl
  have hfilter : ∀ b : String, b ≠ "" → isAllowedBranch env ("refs/heads/" ++ b) = false := by
    intro b hb
    unfold isAllowedBranch
    rw [hcfg, branchOf_append]
    simp [List.contains, beq_eq_false_iff_ne.mpr hb]
    exact hb
  refine ⟨hcfg, hfilter, ?_, ?_⟩
  · unfold isAllowedBranch
    rw [hcfg]
    have hroot : branchOf "refs/heads/" = "" := by decide
    rw [hroot]
    decide
  · intro sig? payload body? b hv hr hb
    rw [ignore_branch_eq env sig? payload body? ("refs/heads/" ++ b) hv hr
      (append_ne_empty "refs/heads/" b (by decide)) (hfilter b hb)]

set_option maxRecDepth 20000 in
/-- C10 witness: under `ALLOWED_BRANCHES=""` the allowed set is `[""]`, a
signed push to `refs/heads/main` is ignored without deployment, and the
bare ref `refs/heads/` passes the filter. -/
theorem c10_empty_allowed_branches_witness :
    envEmptyBranches.ALLOWED_BRANCHES = some "" ∧
    (getConfig envEmptyBranches).allowedBranches = [""] ∧
    isAllowedBranch envEmptyBranches ("refs/heads/" ++ "main") = false ∧
    isAllowedBranch envEmptyBranches "refs/heads/" = true ∧
    (handleWebhook envEmptyBranches (some (createSignature "{}" "test-secret")) (some "push")
        { ref := some ("refs/heads/" ++ "main"), repository := none, pusher := none }
        (some (strBytes "{}"))).deployments = [] := by
  have hc := c10_empty_allowed_branches envEmptyBranches rfl
  refine ⟨rfl, hc.1, hc.2.1 "main" (by decide), hc.2.2.1, ?_⟩
  exact hc.2.2.2 (some (createSignature "{}" "test-secret"))
    { ref := some ("refs/heads/" ++ "main"), repository := none, pusher := none }
    (some (strBytes "{}")) "main"
    (verify_createSignature envEmptyBranches "{}" "test-secret" rfl) rfl (by decide)
